import Mathlib

/-!
Verification of the SOF pipeline execution engine: the component state
machine (`comp_set_state`), the ring-buffer transfer primitive
(`comp_update_buffer_produce` / `comp_update_buffer_consume`), and the
pipeline graph walks (`pipeline_for_each_comp` and the per-operation
recursions for trigger, prepare, reset, copy, xrun and free).

The definitions are a shallow embedding of `src/audio/component.c`
(component state machine and pipeline engine), `src/audio/src/src.c`
(ring-buffer produce/consume) and the inline helpers of
`include/sof/audio/component.h`.  A handful of one-line helpers live in
`sof/audio/pipeline.h`, which is not among the provided sources; those are
modelled from the specification and marked as such in their doc comments.
-/

/-! ## Constants from include/sof/audio/component.h -/

def COMP_STATE_INIT : Int := 0
def COMP_STATE_READY : Int := 1
def COMP_STATE_SUSPEND : Int := 2
def COMP_STATE_PREPARE : Int := 3
def COMP_STATE_PAUSED : Int := 4
def COMP_STATE_ACTIVE : Int := 5

def COMP_TRIGGER_STOP : Int := 0
def COMP_TRIGGER_START : Int := 1
def COMP_TRIGGER_PAUSE : Int := 2
def COMP_TRIGGER_RELEASE : Int := 3
def COMP_TRIGGER_SUSPEND : Int := 4
def COMP_TRIGGER_RESUME : Int := 5
def COMP_TRIGGER_RESET : Int := 6
def COMP_TRIGGER_PREPARE : Int := 7
def COMP_TRIGGER_XRUN : Int := 8

def COMP_STATUS_STATE_ALREADY_SET : Int := 1

/-- errno values used by the engine (errno.h). -/
def EINVAL : Int := 22
def EBUSY : Int := 16
def ENODEV : Int := 19

/-! ## Component state machine -/

/-- `comp_get_requested_state` from include/sof/audio/component.h:
returns the component state that the given trigger command requests. -/
def comp_get_requested_state (cmd : Int) : Int :=
  if cmd = COMP_TRIGGER_START ∨ cmd = COMP_TRIGGER_RELEASE then
    COMP_STATE_ACTIVE
  else if cmd = COMP_TRIGGER_PREPARE ∨ cmd = COMP_TRIGGER_STOP then
    COMP_STATE_PREPARE
  else if cmd = COMP_TRIGGER_PAUSE then
    COMP_STATE_PAUSED
  else if cmd = COMP_TRIGGER_XRUN ∨ cmd = COMP_TRIGGER_RESET then
    COMP_STATE_READY
  else
    COMP_STATE_INIT

/-- `comp_set_state` from src/audio/component.c.  The C function mutates
`dev->state` and returns an int; here it takes the current state and the
command and returns the pair (return value, new state). -/
def comp_set_state (state : Int) (cmd : Int) : Int × Int :=
  if state = comp_get_requested_state cmd then
    (COMP_STATUS_STATE_ALREADY_SET, state)
  else if cmd = COMP_TRIGGER_START then
    if state = COMP_STATE_PREPARE then (0, COMP_STATE_ACTIVE)
    else (-EINVAL, state)
  else if cmd = COMP_TRIGGER_RELEASE then
    if state = COMP_STATE_PAUSED then (0, COMP_STATE_ACTIVE)
    else (-EINVAL, state)
  else if cmd = COMP_TRIGGER_STOP then
    if state = COMP_STATE_ACTIVE ∨ state = COMP_STATE_PAUSED then
      (0, COMP_STATE_PREPARE)
    else (-EINVAL, state)
  else if cmd = COMP_TRIGGER_XRUN then
    (0, COMP_STATE_READY)
  else if cmd = COMP_TRIGGER_PAUSE then
    if state = COMP_STATE_ACTIVE then (0, COMP_STATE_PAUSED)
    else (-EINVAL, state)
  else if cmd = COMP_TRIGGER_RESET then
    (0, COMP_STATE_READY)
  else if cmd = COMP_TRIGGER_PREPARE then
    if state = COMP_STATE_READY then (0, COMP_STATE_PREPARE)
    else (-EINVAL, state)
  else
    (0, state)

/-- The transition table of spec §4.1, written from the claim text, to be
compared with `comp_set_state` (which is embedded from the source):
`some s` means the command succeeds from the given state with new state
`s`, `none` means the table specifies no transition. -/
def specTableNext (state : Int) (cmd : Int) : Option Int :=
  if cmd = COMP_TRIGGER_PREPARE then
    if state = COMP_STATE_READY then some COMP_STATE_PREPARE else none
  else if cmd = COMP_TRIGGER_START then
    if state = COMP_STATE_PREPARE then some COMP_STATE_ACTIVE else none
  else if cmd = COMP_TRIGGER_RELEASE then
    if state = COMP_STATE_PAUSED then some COMP_STATE_ACTIVE else none
  else if cmd = COMP_TRIGGER_PAUSE then
    if state = COMP_STATE_ACTIVE then some COMP_STATE_PAUSED else none
  else if cmd = COMP_TRIGGER_STOP then
    if state = COMP_STATE_ACTIVE ∨ state = COMP_STATE_PAUSED then
      some COMP_STATE_PREPARE
    else none
  else if cmd = COMP_TRIGGER_RESET ∨ cmd = COMP_TRIGGER_XRUN then
    some COMP_STATE_READY
  else
    none

/-! ## Ring buffer (struct comp_buffer, src/audio/src/src.c) -/

/-- 2^32: the ring-buffer counters are `uint32_t` and stores wrap. -/
def U32 : Nat := 4294967296

/-- The fields of `struct comp_buffer` used by the transfer primitive.
The C code keeps byte pointers `r_ptr`/`w_ptr` into `[addr, end_addr)`;
here they are byte offsets from `addr`, so `end_addr` corresponds to
`size`.  `avail` and `free` are the `uint32_t` counters. -/
structure comp_buffer where
  size : Nat
  r_ptr : Nat
  w_ptr : Nat
  avail : Nat
  free : Nat
deriving DecidableEq, Repr

/-- Pointer wrap check shared by produce and consume:
`if (p >= buffer->end_addr) p = buffer->addr + (p - buffer->end_addr)`. -/
def buffer_wrap (size p : Nat) : Nat :=
  if p ≥ size then p - size else p

/-- The available-bytes computation of `comp_update_buffer_produce`:
equal cursors report a full buffer.  The two subtractions are stored into
the `uint32_t` field `avail`, hence the mod 2^32. -/
def calc_avail_produce (size r w : Nat) : Nat :=
  if r < w then (w - r) % U32
  else if r = w then size
  else (size + U32 - (r - w)) % U32

/-- The available-bytes computation of `comp_update_buffer_consume`:
equal cursors report an empty buffer. -/
def calc_avail_consume (size r w : Nat) : Nat :=
  if r < w then (w - r) % U32
  else if r = w then 0
  else (size + U32 - (r - w)) % U32

/-- `comp_update_buffer_produce` from src/audio/src/src.c: advance the
write cursor, wrap it, on overrun (`bytes > free`) jump the read cursor to
the write cursor, then recompute `avail` (full when cursors coincide) and
`free = size - avail` in `uint32_t` arithmetic.  A call with `bytes = 0`
is a no-op. -/
def comp_update_buffer_produce (b : comp_buffer) (bytes : Nat) : comp_buffer :=
  if bytes = 0 then b
  else
    let w := buffer_wrap b.size (b.w_ptr + bytes)
    let r := if bytes > b.free then w else b.r_ptr
    let avail := calc_avail_produce b.size r w
    { size := b.size, r_ptr := r, w_ptr := w, avail := avail,
      free := (b.size + U32 - avail) % U32 }

/-- `comp_update_buffer_consume` from src/audio/src/src.c: advance the
read cursor, wrap it, then recompute `avail` (empty when cursors coincide)
and `free = size - avail` in `uint32_t` arithmetic.  A call with
`bytes = 0` is a no-op. -/
def comp_update_buffer_consume (b : comp_buffer) (bytes : Nat) : comp_buffer :=
  if bytes = 0 then b
  else
    let r := buffer_wrap b.size (b.r_ptr + bytes)
    let avail := calc_avail_consume b.size r b.w_ptr
    { size := b.size, r_ptr := r, w_ptr := b.w_ptr, avail := avail,
      free := (b.size + U32 - avail) % U32 }

/-- Cursor/counter consistency of a live ring buffer: cursors in range,
`avail + free = size`, and `avail` agrees with the cursor distance (when
the cursors coincide the buffer is either empty or full). -/
def buffer_consistent (b : comp_buffer) : Prop :=
  b.r_ptr < b.size ∧ b.w_ptr < b.size ∧ b.avail + b.free = b.size ∧
  (b.r_ptr < b.w_ptr → b.avail = b.w_ptr - b.r_ptr) ∧
  (b.w_ptr < b.r_ptr → b.avail = b.size - (b.r_ptr - b.w_ptr)) ∧
  (b.r_ptr = b.w_ptr → b.avail = 0 ∨ b.avail = b.size)

instance (b : comp_buffer) : Decidable (buffer_consistent b) := by
  unfold buffer_consistent; infer_instance

/-- The number of bytes an overrunning produce discards, expressed through
the model: of the `avail + bytes` bytes that were unread or newly written,
only `avail` bytes (after the call) remain readable; the rest were
overwritten ("last producer wins"). -/
def bytes_discarded (b : comp_buffer) (bytes : Nat) : Nat :=
  b.avail + bytes - (comp_update_buffer_produce b bytes).avail

/-! ## Pipeline graph model

Component/buffer graph and pipeline records used by the walks of
src/audio/component.c.  Per-component driver operations (`comp_trigger`,
`comp_prepare`, `comp_reset`, `comp_copy`) dispatch through the
function-pointer table `comp_ops`; they are modelled by uninterpreted
hooks returning an int, per the contract of include/sof/audio/component.h:
"All component operations must return 0 for success, negative values for
errors and 1 to stop the pipeline walk operation". -/

/-- Stream direction codes from ipc/stream.h (not under src/; values
fixed by the topology ABI).  The pipeline walk direction codes
`PPL_DIR_*` of sof/audio/pipeline.h coincide with them: a playback host
walks downstream through its sink buffers. -/
def SOF_IPC_STREAM_PLAYBACK : Nat := 0

def SOF_IPC_STREAM_CAPTURE : Nat := 1

/-- Modelled from the spec (§4.3): DOWNSTREAM follows sink-buffer links.
The numeric value makes `comp_buffer_list` in component.h pick the sink
list for the playback direction. -/
def PPL_DIR_DOWNSTREAM : Nat := 0

/-- Modelled from the spec (§4.3): UPSTREAM follows source-buffer links. -/
def PPL_DIR_UPSTREAM : Nat := 1

/-- The "stop walk" sentinel of sof/audio/pipeline.h; component.h
documents it as "1 to stop the pipeline walk operation". -/
def PPL_STATUS_PATH_STOP : Int := 1

/-- Component type discriminators from ipc/topology.h (not under src/;
only their distinctness matters here). -/
def SOF_COMP_HOST : Nat := 1

def SOF_COMP_DAI : Nat := 2

def SOF_COMP_SG_DAI : Nat := 3

def SOF_COMP_VOLUME : Nat := 4

/-- enum comp_endpoint_type from include/sof/audio/component.h. -/
def COMP_ENDPOINT_HOST : Nat := 0

def COMP_ENDPOINT_DAI : Nat := 1

def COMP_ENDPOINT_NODE : Nat := 2

/-- Model artifact: returned only when the explicit recursion fuel runs
out; the C recursion is unbounded and this value never arises for fuel
larger than the longest buffer chain (see the C8 theorems). -/
def MODEL_FUEL_OUT : Int := -1000

/-- The fields of `struct comp_dev` the pipeline engine reads:
`comp.pipeline_id` and `comp.type` from the ipc header, the state, the
stream direction, the pipeline back-reference (null until
`pipeline_complete`), and the two buffer lists. -/
structure GComp where
  pipeline_id : Nat
  comp_type : Nat
  state : Int
  direction : Nat
  pipeline : Option Nat
  bsource_list : List Nat
  bsink_list : List Nat
deriving DecidableEq, Repr

/-- A buffer's component back-references (`buffer->source`,
`buffer->sink`). -/
structure GBuffer where
  source : Option Nat
  sink : Option Nat
deriving DecidableEq, Repr

/-- The fields of `struct pipeline` the engine reads and writes. -/
structure GPipeline where
  status : Int
  xrun_bytes : Int
  source_comp : Option Nat
  sink_comp : Option Nat
  sched_comp : Nat
deriving DecidableEq, Repr

/-- The component/buffer graph and the pipelines, addressed by integer
ids standing in for the C pointers. -/
structure World where
  comps : List (Nat × GComp)
  bufs : List (Nat × GBuffer)
  ppls : List (Nat × GPipeline)
deriving DecidableEq, Repr

/-- The per-component driver operations, uninterpreted: each returns the
int result of the type-specific hook. -/
structure Hooks where
  trigRet : Nat → Int → Int
  prepRet : Nat → Int
  resetRet : Nat → Int
  copyRet : Nat → Int

/-- Observable actions of the engine, in program order. -/
inductive Event where
  | trig (comp : Nat) (cmd : Int)
  | prep (comp : Nat)
  | reset (comp : Nat)
  | copy (comp : Nat)
  | schedCopy (ppl : Nat)
  | schedCancel (ppl : Nat)
  | hostXrun (comp : Nat) (bytes : Int)
deriving DecidableEq, Repr

def getComp (w : World) (i : Nat) : Option GComp := w.comps.lookup i

def getBuf (w : World) (i : Nat) : Option GBuffer := w.bufs.lookup i

def getPpl (w : World) (i : Nat) : Option GPipeline := w.ppls.lookup i

def setComp (w : World) (i : Nat) (c : GComp) : World :=
  { w with comps := w.comps.map fun p => if p.1 = i then (i, c) else p }

def setPpl (w : World) (i : Nat) (p : GPipeline) : World :=
  { w with ppls := w.ppls.map fun q => if q.1 = i then (i, p) else q }

def removePpl (w : World) (i : Nat) : World :=
  { w with ppls := w.ppls.filter fun q => q.1 ≠ i }

/-- `comp_buffer_list` from include/sof/audio/component.h: the sink list
for a downstream walk, the source list otherwise. -/
def comp_buffer_list (c : GComp) (dir : Nat) : List Nat :=
  if dir = PPL_DIR_DOWNSTREAM then c.bsink_list else c.bsource_list

/-- `comp_is_single_pipeline` from include/sof/audio/component.h. -/
def comp_is_single_pipeline (cur prev : GComp) : Bool :=
  cur.pipeline_id == prev.pipeline_id

/-- `comp_is_active` from include/sof/audio/component.h. -/
def comp_is_active (c : GComp) : Bool :=
  c.state == COMP_STATE_ACTIVE

/-- `comp_get_endpoint_type` from include/sof/audio/component.h. -/
def comp_get_endpoint_type (c : GComp) : Nat :=
  if c.comp_type = SOF_COMP_HOST then COMP_ENDPOINT_HOST
  else if c.comp_type = SOF_COMP_DAI then COMP_ENDPOINT_DAI
  else COMP_ENDPOINT_NODE

/-- Modelled from the spec (§4.3): `buffer_get_comp` of
sof/audio/pipeline.h — a downstream walk continues to the buffer's
consumer, an upstream walk to its producer. -/
def buffer_get_comp (b : GBuffer) (dir : Nat) : Option Nat :=
  if dir = PPL_DIR_DOWNSTREAM then b.sink else b.source

/-- Modelled from the spec (§4.3, §9): `pipeline_is_same_sched_comp` of
sof/audio/pipeline.h — two pipelines are one scheduling domain iff they
are scheduled by the same component. -/
def pipeline_is_same_sched_comp (w : World) (p1 p2 : Option Nat) : Bool :=
  match p1, p2 with
  | some i, some j =>
    match getPpl w i, getPpl w j with
    | some a, some b => a.sched_comp == b.sched_comp
    | _, _ => false
  | _, _ => false

/-- The different-pipeline endpoint filter shared verbatim by the
params, prepare and reset walks of src/audio/component.c: when the
current component is in another pipeline, propagation stops if a
playback-direction walk reached a pipeline whose sink endpoint is a host
or generic node, or a capture-direction walk reached a DAI or generic
node sink endpoint.  Returns true when the walk must stop. -/
def boundary_filtered (w : World) (cur : GComp) (stream_direction : Nat) :
    Bool :=
  let end_type :=
    match cur.pipeline with
    | none => COMP_ENDPOINT_NODE
    | some pid =>
      match getPpl w pid with
      | none => COMP_ENDPOINT_NODE
      | some p =>
        match p.sink_comp with
        | none => COMP_ENDPOINT_NODE
        | some sid =>
          match getComp w sid with
          | none => COMP_ENDPOINT_NODE
          | some s => comp_get_endpoint_type s
  if stream_direction = SOF_IPC_STREAM_PLAYBACK then
    end_type == COMP_ENDPOINT_HOST || end_type == COMP_ENDPOINT_NODE
  else if stream_direction = SOF_IPC_STREAM_CAPTURE then
    end_type == COMP_ENDPOINT_DAI || end_type == COMP_ENDPOINT_NODE
  else false

/-- `pipeline_for_each_comp` from src/audio/component.c, with the
component-level function `func` (the per-operation recursion) and no
buffer-level function (the walks verified here pass either NULL or
`buffer_reset_pos`, which only touches buffer stream positions that this
model does not carry).  It iterates the buffer list, skips buffers with
no connected component, aborts on a negative return and otherwise keeps
the last return value in the C local `err`, which it returns. -/
def pipeline_for_each_comp (w : World)
    (func : World → Nat → Nat → Int × World × List Event)
    (bufs : List Nat) (dir : Nat) (err : Int) : Int × World × List Event :=
  match bufs with
  | [] => (err, w, [])
  | bid :: rest =>
    match (getBuf w bid).bind (fun b => buffer_get_comp b dir) with
    | none => pipeline_for_each_comp w func rest dir err
    | some cid =>
      match func w cid dir with
      | (e, w1, evs) =>
        if e < 0 then (e, w1, evs)
        else
          match pipeline_for_each_comp w1 func rest dir e with
          | (e2, w2, evs2) => (e2, w2, evs ++ evs2)

/-- `pipeline_comp_trigger_sched_comp` from src/audio/component.c: react
only on the pipeline's scheduling component (or on its sink component
when the pipeline is not the one owning the scheduling component).
PAUSE/STOP/XRUN cancel the periodic task and set the pipeline status
PAUSED; RELEASE/START schedule the copy task, clear `xrun_bytes` and set
the status ACTIVE. -/
def pipeline_comp_trigger_sched_comp (w : World) (pplRef : Option Nat)
    (compId : Nat) (cmd : Int) : World × List Event :=
  match pplRef with
  | none => (w, [])
  | some pid =>
    match getPpl w pid with
    | none => (w, [])
    | some p =>
      let sched_owns : Bool :=
        match getComp w p.sched_comp with
        | some sc => sc.pipeline == some pid
        | none => false
      if p.sched_comp ≠ compId ∧
          (sched_owns = true ∨ p.sink_comp ≠ some compId) then (w, [])
      else if cmd = COMP_TRIGGER_PAUSE ∨ cmd = COMP_TRIGGER_STOP ∨
          cmd = COMP_TRIGGER_XRUN then
        (setPpl w pid { p with status := COMP_STATE_PAUSED },
         [Event.schedCancel pid])
      else if cmd = COMP_TRIGGER_RELEASE ∨ cmd = COMP_TRIGGER_START then
        (setPpl w pid { p with xrun_bytes := 0,
                               status := COMP_STATE_ACTIVE },
         [Event.schedCopy pid])
      else (w, [])

/-- `pipeline_comp_trigger` from src/audio/component.c: skip components
of another pipeline that is not co-scheduled, invoke the component
trigger hook, abort on error or path-stop, update the pipeline via the
scheduling component, then recurse through the buffer list. -/
def pipeline_comp_trigger (h : Hooks) (startId : Nat) (cmd : Int)
    (fuel : Nat) (w : World) (curId : Nat) (dir : Nat) :
    Int × World × List Event :=
  match fuel with
  | 0 => (MODEL_FUEL_OUT, w, [])
  | Nat.succ fuel =>
    match getComp w curId, getComp w startId with
    | some cur, some start =>
      if !comp_is_single_pipeline cur start &&
          !pipeline_is_same_sched_comp w cur.pipeline start.pipeline then
        (0, w, [])
      else
        let e := h.trigRet curId cmd
        if e < 0 ∨ e = PPL_STATUS_PATH_STOP then
          (e, w, [Event.trig curId cmd])
        else
          match pipeline_comp_trigger_sched_comp w cur.pipeline curId cmd
            with
          | (w1, evs1) =>
            match pipeline_for_each_comp w1
                (fun wa cid da =>
                  pipeline_comp_trigger h startId cmd fuel wa cid da)
                (comp_buffer_list cur dir) dir 0 with
            | (e2, w2, evs2) =>
              (e2, w2, Event.trig curId cmd :: evs1 ++ evs2)
    | _, _ => (-ENODEV, w, [])

/-- `pipeline_comp_prepare` from src/audio/component.c: apply the
different-pipeline endpoint filter, invoke the component prepare hook
(`pipeline_comp_task_init` only allocates the scheduling task and always
succeeds in this model), abort on error or path-stop, then recurse (the
C walk also resets buffer read/write positions via `buffer_reset_pos`,
state this model does not carry). -/
def pipeline_comp_prepare (h : Hooks) (startId : Nat) (fuel : Nat)
    (w : World) (curId : Nat) (dir : Nat) : Int × World × List Event :=
  match fuel with
  | 0 => (MODEL_FUEL_OUT, w, [])
  | Nat.succ fuel =>
    match getComp w curId, getComp w startId with
    | some cur, some start =>
      if !comp_is_single_pipeline cur start && boundary_filtered w cur dir
        then (0, w, [])
      else
        let e := h.prepRet curId
        if e < 0 ∨ e = PPL_STATUS_PATH_STOP then (e, w, [Event.prep curId])
        else
          match pipeline_for_each_comp w
              (fun wa cid da =>
                pipeline_comp_prepare h startId fuel wa cid da)
              (comp_buffer_list cur dir) dir 0 with
          | (e2, w2, evs2) => (e2, w2, Event.prep curId :: evs2)
    | _, _ => (-ENODEV, w, [])

/-- `pipeline_prepare` from src/audio/component.c: walk from `dev` in its
own stream direction; on success set the pipeline status PREPARE. -/
def pipeline_prepare (h : Hooks) (fuel : Nat) (w : World) (pid : Nat)
    (devId : Nat) : Int × World × List Event :=
  match getPpl w pid, getComp w devId with
  | some _, some dev =>
    match pipeline_comp_prepare h devId fuel w devId dev.direction with
    | (ret, w1, evs) =>
      if ret < 0 then (ret, w1, evs)
      else
        match getPpl w1 pid with
        | some p1 =>
          (ret, setPpl w1 pid { p1 with status := COMP_STATE_PREPARE }, evs)
        | none => (-ENODEV, w1, evs)
  | _, _ => (-ENODEV, w, [])

/-- `pipeline_xrun_handle_trigger` from src/audio/component.c: only for a
pipeline with a pending xrun (`xrun_bytes != 0` and status PAUSED).
START prepares the pipeline first and clears `xrun_bytes` (propagating a
prepare failure); STOP is treated as already stopped and answers the
path-stop sentinel; other commands fall through. -/
def pipeline_xrun_handle_trigger (h : Hooks) (fuel : Nat) (w : World)
    (pid : Nat) (cmd : Int) : Int × World × List Event :=
  match getPpl w pid with
  | none => (-ENODEV, w, [])
  | some p =>
    if p.xrun_bytes = 0 ∨ p.status ≠ COMP_STATE_PAUSED then (0, w, [])
    else if cmd = COMP_TRIGGER_START then
      match p.source_comp with
      | none => (-ENODEV, w, [])
      | some srcId =>
        match pipeline_prepare h fuel w pid srcId with
        | (ret, w1, evs) =>
          if ret < 0 then (ret, w1, evs)
          else
            match getPpl w1 pid with
            | some p1 =>
              (ret, setPpl w1 pid { p1 with xrun_bytes := 0 }, evs)
            | none => (-ENODEV, w1, evs)
    else if cmd = COMP_TRIGGER_STOP then (PPL_STATUS_PATH_STOP, w, [])
    else (0, w, [])

/-- `pipeline_trigger` from src/audio/component.c: handle a pending xrun
first (a negative handler result fails the trigger, the path-stop result
is success with no propagation), then propagate the trigger from `host`
in its stream direction. -/
def pipeline_trigger (h : Hooks) (fuel : Nat) (w : World) (pid : Nat)
    (hostId : Nat) (cmd : Int) : Int × World × List Event :=
  match getPpl w pid with
  | none => (-ENODEV, w, [])
  | some p =>
    if p.xrun_bytes ≠ 0 then
      match pipeline_xrun_handle_trigger h fuel w pid cmd with
      | (ret, w1, evs) =>
        if ret < 0 then (ret, w1, evs)
        else if ret = PPL_STATUS_PATH_STOP then (0, w1, evs)
        else
          match getComp w1 hostId with
          | none => (-ENODEV, w1, evs)
          | some host =>
            match pipeline_comp_trigger h hostId cmd fuel w1 hostId
                host.direction with
            | (ret2, w2, evs2) => (ret2, w2, evs ++ evs2)
    else
      match getComp w hostId with
      | none => (-ENODEV, w, [])
      | some host =>
        pipeline_comp_trigger h hostId cmd fuel w hostId host.direction

/-- `pipeline_comp_reset` from src/audio/component.c: apply the
different-pipeline endpoint filter (against the pipeline's source
component), invoke the component reset hook, abort on error or
path-stop, then recurse. -/
def pipeline_comp_reset (h : Hooks) (pplSrcId : Nat) (fuel : Nat)
    (w : World) (curId : Nat) (dir : Nat) : Int × World × List Event :=
  match fuel with
  | 0 => (MODEL_FUEL_OUT, w, [])
  | Nat.succ fuel =>
    match getComp w curId, getComp w pplSrcId with
    | some cur, some psrc =>
      if !comp_is_single_pipeline cur psrc && boundary_filtered w cur dir
        then (0, w, [])
      else
        let e := h.resetRet curId
        if e < 0 ∨ e = PPL_STATUS_PATH_STOP then
          (e, w, [Event.reset curId])
        else
          match pipeline_for_each_comp w
              (fun wa cid da =>
                pipeline_comp_reset h pplSrcId fuel wa cid da)
              (comp_buffer_list cur dir) dir 0 with
          | (e2, w2, evs2) => (e2, w2, Event.reset curId :: evs2)
    | _, _ => (-ENODEV, w, [])

/-- `pipeline_reset` from src/audio/component.c: walk from `host` in its
stream direction; a failure is logged and returned. -/
def pipeline_reset (h : Hooks) (fuel : Nat) (w : World) (pid : Nat)
    (hostId : Nat) : Int × World × List Event :=
  match getPpl w pid, getComp w hostId with
  | some p, some host =>
    match p.source_comp with
    | none => (-ENODEV, w, [])
    | some srcId =>
      pipeline_comp_reset h srcId fuel w hostId host.direction
  | _, _ => (-ENODEV, w, [])

/-- `pipeline_comp_copy` from src/audio/component.c: skip components of
another pipeline and inactive components without error; on a downstream
walk copy the component before recursing, on an upstream walk copy it
after the recursion returns successfully. -/
def pipeline_comp_copy (h : Hooks) (startId : Nat) (fuel : Nat)
    (w : World) (curId : Nat) (dir : Nat) : Int × World × List Event :=
  match fuel with
  | 0 => (MODEL_FUEL_OUT, w, [])
  | Nat.succ fuel =>
    match getComp w curId, getComp w startId with
    | some cur, some start =>
      if !comp_is_single_pipeline cur start then (0, w, [])
      else if !comp_is_active cur then (0, w, [])
      else if dir = PPL_DIR_DOWNSTREAM then
        let e := h.copyRet curId
        if e < 0 ∨ e = PPL_STATUS_PATH_STOP then (e, w, [Event.copy curId])
        else
          match pipeline_for_each_comp w
              (fun wa cid da => pipeline_comp_copy h startId fuel wa cid da)
              (comp_buffer_list cur dir) dir 0 with
          | (e2, w2, evs2) => (e2, w2, Event.copy curId :: evs2)
      else
        match pipeline_for_each_comp w
            (fun wa cid da => pipeline_comp_copy h startId fuel wa cid da)
            (comp_buffer_list cur dir) dir 0 with
        | (e2, w2, evs2) =>
          if e2 < 0 ∨ e2 = PPL_STATUS_PATH_STOP then (e2, w2, evs2)
          else (h.copyRet curId, w2, evs2 ++ [Event.copy curId])
    | _, _ => (-ENODEV, w, [])

/-- `pipeline_copy` from src/audio/component.c: a playback pipeline
starts the copy walk at its sink component and walks upstream; any other
pipeline starts at its source component and walks downstream. -/
def pipeline_copy (h : Hooks) (fuel : Nat) (w : World) (pid : Nat) :
    Int × World × List Event :=
  match getPpl w pid with
  | none => (-ENODEV, w, [])
  | some p =>
    match p.source_comp, p.sink_comp with
    | some srcId, some sinkId =>
      match getComp w srcId with
      | none => (-ENODEV, w, [])
      | some src =>
        if src.direction = SOF_IPC_STREAM_PLAYBACK then
          pipeline_comp_copy h sinkId fuel w sinkId PPL_DIR_UPSTREAM
        else
          pipeline_comp_copy h srcId fuel w srcId PPL_DIR_DOWNSTREAM
    | _, _ => (-ENODEV, w, [])

/-- `pipeline_comp_xrun` from src/audio/component.c: send an XRUN
notification to every host component reached by the walk, then recurse
(the stream position record is reduced to the xrun byte count). -/
def pipeline_comp_xrun (bytes : Int) (fuel : Nat) (w : World)
    (curId : Nat) (dir : Nat) : Int × World × List Event :=
  match fuel with
  | 0 => (MODEL_FUEL_OUT, w, [])
  | Nat.succ fuel =>
    match getComp w curId with
    | none => (-ENODEV, w, [])
    | some cur =>
      let evs :=
        if cur.comp_type = SOF_COMP_HOST then [Event.hostXrun curId bytes]
        else []
      match pipeline_for_each_comp w
          (fun wa cid da => pipeline_comp_xrun bytes fuel wa cid da)
          (comp_buffer_list cur dir) dir 0 with
      | (e2, w2, evs2) => (e2, w2, evs ++ evs2)

/-- `pipeline_xrun` from src/audio/component.c: do nothing if a recovery
is already pending (`xrun_bytes != 0`) or the reporting component is not
ACTIVE; otherwise trigger XRUN on the graph from the pipeline's source
component (result only logged), record the byte delta in `xrun_bytes`
and notify every reachable host endpoint. -/
def pipeline_xrun (h : Hooks) (fuel : Nat) (w : World) (pid : Nat)
    (devId : Nat) (bytes : Int) : World × List Event :=
  match getPpl w pid, getComp w devId with
  | some p, some dev =>
    if p.xrun_bytes ≠ 0 then (w, [])
    else if dev.state ≠ COMP_STATE_ACTIVE then (w, [])
    else
      match p.source_comp with
      | none => (w, [])
      | some srcId =>
        match pipeline_trigger h fuel w pid srcId COMP_TRIGGER_XRUN with
        | (_, w1, evs1) =>
          match getPpl w1 pid with
          | none => (w1, evs1)
          | some p1 =>
            let w2 := setPpl w1 pid { p1 with xrun_bytes := bytes }
            match getComp w2 devId with
            | none => (w2, evs1)
            | some dev1 =>
              match pipeline_comp_xrun bytes fuel w2 devId dev1.direction
                with
              | (_, w3, evs3) => (w3, evs1 ++ evs3)
  | _, _ => (w, [])

/-- `pipeline_comp_free` from src/audio/component.c: skip components of
another pipeline; clear the pipeline back-reference, recurse through the
walk-direction buffer list (the recursion result is ignored by the C
code), then unlink the component from that buffer list
(`list_item_del(comp_buffer_list(current, dir))`). -/
def pipeline_comp_free (startId : Nat) (fuel : Nat) (w : World)
    (curId : Nat) (dir : Nat) : Int × World × List Event :=
  match fuel with
  | 0 => (MODEL_FUEL_OUT, w, [])
  | Nat.succ fuel =>
    match getComp w curId, getComp w startId with
    | some cur, some start =>
      if !comp_is_single_pipeline cur start then (0, w, [])
      else
        let w1 := setComp w curId { cur with pipeline := none }
        match pipeline_for_each_comp w1
            (fun wa cid da => pipeline_comp_free startId fuel wa cid da)
            (comp_buffer_list cur dir) dir 0 with
        | (_, w2, evs2) =>
          match getComp w2 curId with
          | none => (0, w2, evs2)
          | some cur2 =>
            let cur3 :=
              if dir = PPL_DIR_DOWNSTREAM then { cur2 with bsink_list := [] }
              else { cur2 with bsource_list := [] }
            (0, setComp w2 curId cur3, evs2)
    | _, _ => (-ENODEV, w, [])

/-- `pipeline_free` from src/audio/component.c: refuse with -EBUSY when
the pipeline's source component is beyond the READY state; otherwise
disconnect the subgraph reachable downstream from the source component
and free the pipeline (the scheduling task teardown has no observable
effect in this model). -/
def pipeline_free (fuel : Nat) (w : World) (pid : Nat) : Int × World :=
  match getPpl w pid with
  | none => (-ENODEV, w)
  | some p =>
    match p.source_comp with
    | none => (0, removePpl w pid)
    | some srcId =>
      match getComp w srcId with
      | none => (-ENODEV, w)
      | some src =>
        if src.state > COMP_STATE_READY then (-EBUSY, w)
        else
          match pipeline_comp_free srcId fuel w srcId PPL_DIR_DOWNSTREAM
            with
          | (_, w1, _) => (0, removePpl w1 pid)

/-- The component connected through a buffer in the walk direction, if
any: `buffer_get_comp(buffer, dir)` after looking the buffer up. -/
def buffer_conn (w : World) (dir : Nat) (bid : Nat) : Option Nat :=
  (getBuf w bid).bind (fun b => buffer_get_comp b dir)

/-- The buffer-list iteration of `pipeline_for_each_comp` for
`walk_visit`: `f` is the recursive visit of a connected component. -/
def walk_visit_bufs (f : Nat → Option (List Nat)) (w : World) (dir : Nat)
    (bufs : List Nat) : Option (List Nat) :=
  match bufs with
  | [] => some []
  | bid :: rest =>
    match buffer_conn w dir bid with
    | none => walk_visit_bufs f w dir rest
    | some cid =>
      match f cid, walk_visit_bufs f w dir rest with
      | some vs, some vs2 => some (vs ++ vs2)
      | _, _ => none

/-- The generic graph walk of `pipeline_for_each_comp` driving a plain
per-component recursion (as trigger, prepare, reset and copy do),
instrumented to return the visit order.  `none` reports fuel exhaustion;
the C recursion carries no fuel, so termination is exactly the claim
that enough fuel exists. -/
def walk_visit (w : World) (dir : Nat) (fuel : Nat) (curId : Nat) :
    Option (List Nat) :=
  match fuel with
  | 0 => none
  | Nat.succ fuel =>
    match getComp w curId with
    | none => some [curId]
    | some cur =>
      (walk_visit_bufs (fun cid => walk_visit w dir fuel cid) w dir
          (comp_buffer_list cur dir)).map (curId :: ·)

/-- Successor components of a component along the walk direction: the
components reached through its `comp_buffer_list`. -/
def walk_successors (w : World) (dir : Nat) (c : GComp) : List Nat :=
  (comp_buffer_list c dir).filterMap (buffer_conn w dir)

/-! ## Concrete scenario worlds -/

/-- Hooks whose operations all succeed immediately. -/
def hooks0 : Hooks :=
  { trigRet := fun _ _ => 0, prepRet := fun _ => 0,
    resetRet := fun _ => 0, copyRet := fun _ => 0 }

/-- A 3-component playback chain Host(0) → buf 0 → Volume(1) → buf 1 →
DAI(2), all ACTIVE, one pipeline (id 1, source 0, sink 2, scheduled by
the DAI). -/
def playbackWorld : World :=
  { comps :=
      [(0, ⟨1, SOF_COMP_HOST, COMP_STATE_ACTIVE, SOF_IPC_STREAM_PLAYBACK,
            some 1, [], [0]⟩),
       (1, ⟨1, SOF_COMP_VOLUME, COMP_STATE_ACTIVE, SOF_IPC_STREAM_PLAYBACK,
            some 1, [0], [1]⟩),
       (2, ⟨1, SOF_COMP_DAI, COMP_STATE_ACTIVE, SOF_IPC_STREAM_PLAYBACK,
            some 1, [1], []⟩)],
    bufs := [(0, ⟨some 0, some 1⟩), (1, ⟨some 1, some 2⟩)],
    ppls := [(1, ⟨COMP_STATE_ACTIVE, 0, some 0, some 2, 2⟩)] }

/-- The mirrored capture chain DAI(0) → buf 0 → Volume(1) → buf 1 →
Host(2), all ACTIVE, one pipeline (id 1, source 0, sink 2). -/
def captureWorld : World :=
  { comps :=
      [(0, ⟨1, SOF_COMP_DAI, COMP_STATE_ACTIVE, SOF_IPC_STREAM_CAPTURE,
            some 1, [], [0]⟩),
       (1, ⟨1, SOF_COMP_VOLUME, COMP_STATE_ACTIVE, SOF_IPC_STREAM_CAPTURE,
            some 1, [0], [1]⟩),
       (2, ⟨1, SOF_COMP_HOST, COMP_STATE_ACTIVE, SOF_IPC_STREAM_CAPTURE,
            some 1, [1], []⟩)],
    bufs := [(0, ⟨some 0, some 1⟩), (1, ⟨some 1, some 2⟩)],
    ppls := [(1, ⟨COMP_STATE_ACTIVE, 0, some 0, some 2, 2⟩)] }

/-- An acyclic diamond: component 0 feeds components 1 and 2 through
buffers 0 and 1, and both feed component 3 through buffers 2 and 3. -/
def diamondWorld : World :=
  { comps :=
      [(0, ⟨1, SOF_COMP_HOST, COMP_STATE_ACTIVE, SOF_IPC_STREAM_PLAYBACK,
            some 1, [], [0, 1]⟩),
       (1, ⟨1, SOF_COMP_VOLUME, COMP_STATE_ACTIVE, SOF_IPC_STREAM_PLAYBACK,
            some 1, [0], [2]⟩),
       (2, ⟨1, SOF_COMP_VOLUME, COMP_STATE_ACTIVE, SOF_IPC_STREAM_PLAYBACK,
            some 1, [1], [3]⟩),
       (3, ⟨1, SOF_COMP_DAI, COMP_STATE_ACTIVE, SOF_IPC_STREAM_PLAYBACK,
            some 1, [2, 3], []⟩)],
    bufs := [(0, ⟨some 0, some 1⟩), (1, ⟨some 0, some 2⟩),
             (2, ⟨some 1, some 3⟩), (3, ⟨some 2, some 3⟩)],
    ppls := [(1, ⟨COMP_STATE_ACTIVE, 0, some 0, some 3, 3⟩)] }

/-- A 3-component chain 0 → buf 0 → 1 → buf 1 → 2 in one pipeline, all
READY. -/
def resetChainWorld : World :=
  { comps :=
      [(0, ⟨1, SOF_COMP_HOST, COMP_STATE_READY, SOF_IPC_STREAM_PLAYBACK,
            some 1, [], [0]⟩),
       (1, ⟨1, SOF_COMP_VOLUME, COMP_STATE_READY, SOF_IPC_STREAM_PLAYBACK,
            some 1, [0], [1]⟩),
       (2, ⟨1, SOF_COMP_DAI, COMP_STATE_READY, SOF_IPC_STREAM_PLAYBACK,
            some 1, [1], []⟩)],
    bufs := [(0, ⟨some 0, some 1⟩), (1, ⟨some 1, some 2⟩)],
    ppls := [(1, ⟨COMP_STATE_PREPARE, 0, some 0, some 2, 2⟩)] }

/-- Hooks whose reset fails with -EINVAL on the mid-chain component 1,
everything else succeeding. -/
def resetMidFailHooks : Hooks :=
  { trigRet := fun _ _ => 0, prepRet := fun _ => 0,
    resetRet := fun c => if c = 1 then -EINVAL else 0,
    copyRet := fun _ => 0 }

/-- The playback chain of `playbackWorld` with a pending XRUN: pipeline
status PAUSED, `xrun_bytes = -512`, all components READY. -/
def xrunWorld : World :=
  { comps :=
      [(0, ⟨1, SOF_COMP_HOST, COMP_STATE_READY, SOF_IPC_STREAM_PLAYBACK,
            some 1, [], [0]⟩),
       (1, ⟨1, SOF_COMP_VOLUME, COMP_STATE_READY, SOF_IPC_STREAM_PLAYBACK,
            some 1, [0], [1]⟩),
       (2, ⟨1, SOF_COMP_DAI, COMP_STATE_READY, SOF_IPC_STREAM_PLAYBACK,
            some 1, [1], []⟩)],
    bufs := [(0, ⟨some 0, some 1⟩), (1, ⟨some 1, some 2⟩)],
    ppls := [(1, ⟨COMP_STATE_PAUSED, -512, some 0, some 2, 2⟩)] }

/-- A pipeline whose source component (0) is READY but whose sink
component (1) is still ACTIVE. -/
def freeWorld : World :=
  { comps :=
      [(0, ⟨1, SOF_COMP_HOST, COMP_STATE_READY, SOF_IPC_STREAM_PLAYBACK,
            some 1, [], [0]⟩),
       (1, ⟨1, SOF_COMP_DAI, COMP_STATE_ACTIVE, SOF_IPC_STREAM_PLAYBACK,
            some 1, [0], []⟩)],
    bufs := [(0, ⟨some 0, some 1⟩)],
    ppls := [(1, ⟨COMP_STATE_ACTIVE, 0, some 0, some 1, 1⟩)] }

/-- The pipeline of `freeWorld` with its source component still ACTIVE. -/
def freeBusyWorld : World :=
  { comps :=
      [(0, ⟨1, SOF_COMP_HOST, COMP_STATE_ACTIVE, SOF_IPC_STREAM_PLAYBACK,
            some 1, [], [0]⟩),
       (1, ⟨1, SOF_COMP_DAI, COMP_STATE_ACTIVE, SOF_IPC_STREAM_PLAYBACK,
            some 1, [0], []⟩)],
    bufs := [(0, ⟨some 0, some 1⟩)],
    ppls := [(1, ⟨COMP_STATE_ACTIVE, 0, some 0, some 1, 1⟩)] }

/-! ## Theorems: component state machine -/

/-- Claim C1: for every component state in {INIT, READY, PREPARE, ACTIVE,
PAUSED} and every command in {PREPARE, START, RELEASE, PAUSE, STOP, RESET,
XRUN}, `comp_set_state` yields exactly one of: the new state given by the
§4.1 transition table with return value 0, the distinct "already set"
success sentinel when the requested state equals the current state (state
unchanged), or an `-EINVAL` error (state unchanged); and RESET and XRUN
never yield the error outcome. -/
theorem comp_set_state_total (s c : Int)
    (hs : s ∈ [COMP_STATE_INIT, COMP_STATE_READY, COMP_STATE_PREPARE,
               COMP_STATE_ACTIVE, COMP_STATE_PAUSED])
    (hc : c ∈ [COMP_TRIGGER_PREPARE, COMP_TRIGGER_START,
               COMP_TRIGGER_RELEASE, COMP_TRIGGER_PAUSE, COMP_TRIGGER_STOP,
               COMP_TRIGGER_RESET, COMP_TRIGGER_XRUN]) :
    ((comp_set_state s c).1 = 0 ∧
       specTableNext s c = some (comp_set_state s c).2) ∨
    ((comp_set_state s c).1 = COMP_STATUS_STATE_ALREADY_SET ∧
       (comp_set_state s c).2 = s ∧ comp_get_requested_state c = s) ∨
    ((comp_set_state s c).1 = -EINVAL ∧ (comp_set_state s c).2 = s ∧
       c ≠ COMP_TRIGGER_RESET ∧ c ≠ COMP_TRIGGER_XRUN) := by
  fin_cases hs <;> fin_cases hc <;> decide

/-- Witness for C1 at the concrete pair (READY, PREPARE). -/
theorem comp_set_state_total_witness :
    ((comp_set_state COMP_STATE_READY COMP_TRIGGER_PREPARE).1 = 0 ∧
       specTableNext COMP_STATE_READY COMP_TRIGGER_PREPARE =
         some (comp_set_state COMP_STATE_READY COMP_TRIGGER_PREPARE).2) ∨
    ((comp_set_state COMP_STATE_READY COMP_TRIGGER_PREPARE).1 =
         COMP_STATUS_STATE_ALREADY_SET ∧
       (comp_set_state COMP_STATE_READY COMP_TRIGGER_PREPARE).2 =
         COMP_STATE_READY ∧
       comp_get_requested_state COMP_TRIGGER_PREPARE = COMP_STATE_READY) ∨
    ((comp_set_state COMP_STATE_READY COMP_TRIGGER_PREPARE).1 = -EINVAL ∧
       (comp_set_state COMP_STATE_READY COMP_TRIGGER_PREPARE).2 =
         COMP_STATE_READY ∧
       COMP_TRIGGER_PREPARE ≠ COMP_TRIGGER_RESET ∧
       COMP_TRIGGER_PREPARE ≠ COMP_TRIGGER_XRUN) :=
  comp_set_state_total COMP_STATE_READY COMP_TRIGGER_PREPARE
    (by decide) (by decide)

/-! ## Theorems: ring buffer -/

/-- Helper: an overrunning produce (`bytes > free`, `bytes ≠ 0`) jumps the
read cursor onto the write cursor, reports the buffer full and leaves no
free space. -/
theorem produce_overrun_shape (b : comp_buffer) (n : Nat) (h0 : n ≠ 0)
    (hov : n > b.free) :
    (comp_update_buffer_produce b n).r_ptr =
        (comp_update_buffer_produce b n).w_ptr ∧
    (comp_update_buffer_produce b n).avail = b.size ∧
    (comp_update_buffer_produce b n).free = 0 := by
  simp only [comp_update_buffer_produce, calc_avail_produce, if_neg h0,
    if_pos hov, lt_self_iff_false, if_false, eq_self_iff_true, if_true]
  refine ⟨trivial, trivial, ?_⟩
  simp only [U32]
  omega

/-- Claim C2: `produce` with `0 < n` and `n > free_before` leaves the read
cursor equal to the write cursor, reports the buffer full
(`avail = size`), and discards exactly `n - free_before` bytes of the
previously readable or newly written data. -/
theorem produce_overrun_law (b : comp_buffer) (n : Nat) (hn : 0 < n)
    (hov : n > b.free) (hinv : b.avail + b.free = b.size) :
    (comp_update_buffer_produce b n).r_ptr =
        (comp_update_buffer_produce b n).w_ptr ∧
    (comp_update_buffer_produce b n).avail = b.size ∧
    bytes_discarded b n = n - b.free := by
  obtain ⟨hrw, ha, -⟩ := produce_overrun_shape b n (by omega) hov
  refine ⟨hrw, ha, ?_⟩
  unfold bytes_discarded
  rw [ha]
  omega

/-- Witness for C2 on the concrete buffer ⟨size 4, r 1, w 3, avail 2,
free 2⟩ with an overrunning produce of 3 bytes. -/
theorem produce_overrun_law_witness :
    (comp_update_buffer_produce ⟨4, 1, 3, 2, 2⟩ 3).r_ptr =
        (comp_update_buffer_produce ⟨4, 1, 3, 2, 2⟩ 3).w_ptr ∧
    (comp_update_buffer_produce ⟨4, 1, 3, 2, 2⟩ 3).avail = 4 ∧
    bytes_discarded ⟨4, 1, 3, 2, 2⟩ 3 = 3 - 2 :=
  produce_overrun_law ⟨4, 1, 3, 2, 2⟩ 3 (by decide) (by decide) (by decide)

/-- Counterexample for C3 as stated: from the consistent empty buffer
⟨size 4, r 0, w 0, avail 0, free 4⟩, `consume 9` leaves the read cursor
out of range and the `uint32_t` computation `size - (r - w)` underflows,
so `avail + free = size` fails (avail becomes 2^32 - 1 and free 5). -/
theorem buffer_invariant_cex :
    buffer_consistent ⟨4, 0, 0, 0, 4⟩ ∧
    (comp_update_buffer_consume ⟨4, 0, 0, 0, 4⟩ 9).avail +
        (comp_update_buffer_consume ⟨4, 0, 0, 0, 4⟩ 9).free ≠ 4 := by
  constructor
  · decide
  · simp only [comp_update_buffer_consume, calc_avail_consume, buffer_wrap,
      U32]
    decide

/-- Claim C3 (amended): for a ring buffer with in-range cursors and
`avail + free = size`, the invariant `avail + free = size` is preserved by
`produce` for every byte count, and by `consume` for every byte count of
at most `size` (which covers every call respecting the caller contract
`n ≤ avail`); a `consume` beyond `size` can underflow the `uint32_t`
counters (see the counterexample). -/
theorem buffer_invariant_preserved (b : comp_buffer) (n : Nat)
    (hr : b.r_ptr < b.size) (hw : b.w_ptr < b.size)
    (hinv : b.avail + b.free = b.size) (hsz : b.size < U32) :
    ((comp_update_buffer_produce b n).avail +
        (comp_update_buffer_produce b n).free = b.size) ∧
    (n ≤ b.size →
      (comp_update_buffer_consume b n).avail +
          (comp_update_buffer_consume b n).free = b.size) := by
  simp only [U32] at hsz
  constructor
  · by_cases h0 : n = 0
    · simp [comp_update_buffer_produce, h0, hinv]
    · by_cases hov : n > b.free
      · obtain ⟨-, ha, hf⟩ := produce_overrun_shape b n h0 hov
        rw [ha, hf]
        omega
      · simp only [comp_update_buffer_produce, calc_avail_produce,
          buffer_wrap, if_neg h0, if_neg hov, U32]
        split_ifs <;> omega
  · intro hn
    by_cases h0 : n = 0
    · simp [comp_update_buffer_consume, h0, hinv]
    · simp only [comp_update_buffer_consume, calc_avail_consume,
        buffer_wrap, if_neg h0, U32]
      split_ifs <;> omega

/-- Witness for C3 (amended) on the concrete buffer ⟨4, 1, 3, 2, 2⟩ with
n = 2. -/
theorem buffer_invariant_preserved_witness :
    ((comp_update_buffer_produce ⟨4, 1, 3, 2, 2⟩ 2).avail +
        (comp_update_buffer_produce ⟨4, 1, 3, 2, 2⟩ 2).free = 4) ∧
    (2 ≤ 4 →
      (comp_update_buffer_consume ⟨4, 1, 3, 2, 2⟩ 2).avail +
          (comp_update_buffer_consume ⟨4, 1, 3, 2, 2⟩ 2).free = 4) :=
  buffer_invariant_preserved ⟨4, 1, 3, 2, 2⟩ 2 (by decide) (by decide)
    (by decide) (by decide)

/-- Claim C4: the equal-cursor case is resolved asymmetrically by
direction: filling a consistent buffer exactly (`produce free`) makes the
cursors coincide with `avail = size` (full), while draining it exactly
(`consume avail`) makes the cursors coincide with `avail = 0` (empty). -/
theorem buffer_equal_cursor_asymmetry (b : comp_buffer)
    (hc : buffer_consistent b) (hsz : b.size < U32) :
    ((comp_update_buffer_produce b b.free).r_ptr =
        (comp_update_buffer_produce b b.free).w_ptr ∧
      (comp_update_buffer_produce b b.free).avail = b.size) ∧
    ((comp_update_buffer_consume b b.avail).r_ptr =
        (comp_update_buffer_consume b b.avail).w_ptr ∧
      (comp_update_buffer_consume b b.avail).avail = 0) := by
  obtain ⟨hr, hw, hinv, hlt, hgt, heq⟩ := hc
  simp only [U32] at hsz
  constructor
  · by_cases h0 : b.free = 0
    · have hrw : b.r_ptr = b.w_ptr := by
        rcases Nat.lt_trichotomy b.r_ptr b.w_ptr with h | h | h
        · have := hlt h; omega
        · exact h
        · have := hgt h; omega
      simp only [comp_update_buffer_produce, if_pos h0]
      exact ⟨hrw, by omega⟩
    · simp only [comp_update_buffer_produce, calc_avail_produce,
        buffer_wrap, if_neg h0, gt_iff_lt, lt_irrefl, if_false, U32]
      rcases Nat.lt_trichotomy b.r_ptr b.w_ptr with h | h | h
      · have := hlt h
        split_ifs <;> omega
      · rcases heq h with h0' | h0' <;> split_ifs <;> omega
      · have := hgt h
        split_ifs <;> omega
  · by_cases h0 : b.avail = 0
    · have hrw : b.r_ptr = b.w_ptr := by
        rcases Nat.lt_trichotomy b.r_ptr b.w_ptr with h | h | h
        · have := hlt h; omega
        · exact h
        · have := hgt h; omega
      simp only [comp_update_buffer_consume, if_pos h0]
      exact ⟨hrw, h0⟩
    · simp only [comp_update_buffer_consume, calc_avail_consume,
        buffer_wrap, if_neg h0, U32]
      rcases Nat.lt_trichotomy b.r_ptr b.w_ptr with h | h | h
      · have := hlt h
        split_ifs <;> omega
      · rcases heq h with h0' | h0' <;> split_ifs <;> omega
      · have := hgt h
        split_ifs <;> omega

/-- Witness for C4 on the concrete buffer ⟨4, 1, 3, 2, 2⟩. -/
theorem buffer_equal_cursor_asymmetry_witness :
    ((comp_update_buffer_produce ⟨4, 1, 3, 2, 2⟩ (2 : Nat)).r_ptr =
        (comp_update_buffer_produce ⟨4, 1, 3, 2, 2⟩ (2 : Nat)).w_ptr ∧
      (comp_update_buffer_produce ⟨4, 1, 3, 2, 2⟩ (2 : Nat)).avail = 4) ∧
    ((comp_update_buffer_consume ⟨4, 1, 3, 2, 2⟩ (2 : Nat)).r_ptr =
        (comp_update_buffer_consume ⟨4, 1, 3, 2, 2⟩ (2 : Nat)).w_ptr ∧
      (comp_update_buffer_consume ⟨4, 1, 3, 2, 2⟩ (2 : Nat)).avail = 0) :=
  buffer_equal_cursor_asymmetry ⟨4, 1, 3, 2, 2⟩ (by decide) (by decide)

/-! ## Theorems: copy ordering (C5) -/

/-- Claim C5: a playback copy cycle starts at the sink and walks
upstream, copying each visited active same-pipeline component only after
the recursion into its upstream neighbours returns successfully (first
conjunct), while a downstream walk copies the component before recursing
(second conjunct); concretely, for the 3-component playback chain
Host(0) → Volume(1) → DAI(2) one copy cycle emits
Host.copy, Volume.copy, DAI.copy in that order, and for the mirrored
capture chain DAI(0) → Volume(1) → Host(2) it copies source first,
downstream. -/
theorem pipeline_copy_order :
    (∀ (h : Hooks) (fuel : Nat) (w : World) (startId curId : Nat)
       {cur start : GComp},
       getComp w curId = some cur → getComp w startId = some start →
       comp_is_single_pipeline cur start = true →
       comp_is_active cur = true →
       ∀ e2 w2 evs2,
         pipeline_for_each_comp w
             (fun wa cid da => pipeline_comp_copy h startId fuel wa cid da)
             (comp_buffer_list cur PPL_DIR_UPSTREAM) PPL_DIR_UPSTREAM 0 =
           (e2, w2, evs2) →
         ¬(e2 < 0 ∨ e2 = PPL_STATUS_PATH_STOP) →
         pipeline_comp_copy h startId (fuel + 1) w curId PPL_DIR_UPSTREAM =
           (h.copyRet curId, w2, evs2 ++ [Event.copy curId])) ∧
    (∀ (h : Hooks) (fuel : Nat) (w : World) (startId curId : Nat)
       {cur start : GComp},
       getComp w curId = some cur → getComp w startId = some start →
       comp_is_single_pipeline cur start = true →
       comp_is_active cur = true →
       ¬(h.copyRet curId < 0 ∨ h.copyRet curId = PPL_STATUS_PATH_STOP) →
       ∀ e2 w2 evs2,
         pipeline_for_each_comp w
             (fun wa cid da => pipeline_comp_copy h startId fuel wa cid da)
             (comp_buffer_list cur PPL_DIR_DOWNSTREAM) PPL_DIR_DOWNSTREAM
             0 = (e2, w2, evs2) →
         pipeline_comp_copy h startId (fuel + 1) w curId
             PPL_DIR_DOWNSTREAM =
           (e2, w2, Event.copy curId :: evs2)) ∧
    pipeline_copy hooks0 10 playbackWorld 1 =
      (0, playbackWorld, [Event.copy 0, Event.copy 1, Event.copy 2]) ∧
    pipeline_copy hooks0 10 captureWorld 1 =
      (0, captureWorld, [Event.copy 0, Event.copy 1, Event.copy 2]) := by
  refine ⟨?_, ?_, by decide, by decide⟩
  · intro h fuel w startId curId cur start hcur hstart hsingle hactive
      e2 w2 evs2 heach hok
    simp only [PPL_DIR_UPSTREAM] at heach
    simp [pipeline_comp_copy, hcur, hstart, hsingle, hactive,
      PPL_DIR_UPSTREAM, PPL_DIR_DOWNSTREAM, heach, hok]
  · intro h fuel w startId curId cur start hcur hstart hsingle hactive
      hok e2 w2 evs2 heach
    simp only [PPL_DIR_DOWNSTREAM] at heach
    simp [pipeline_comp_copy, hcur, hstart, hsingle, hactive,
      PPL_DIR_DOWNSTREAM, heach, hok]

/-- Witness for C5: the upstream ordering conjunct applied at the DAI of
the concrete playback chain. -/
theorem pipeline_copy_order_witness :
    pipeline_comp_copy hooks0 2 10 playbackWorld 2 PPL_DIR_UPSTREAM =
      (hooks0.copyRet 2, playbackWorld,
        [Event.copy 0, Event.copy 1] ++ [Event.copy 2]) :=
  pipeline_copy_order.1 hooks0 9 playbackWorld 2 2 rfl rfl rfl rfl 0
    playbackWorld [Event.copy 0, Event.copy 1] rfl (by decide)

/-! ## Theorems: reset walk aborts on failure (C6) -/

/-- Counterexample for C6 as stated: in the 3-component chain of
`resetChainWorld`, a reset hook failing with -EINVAL on the mid-chain
component 1 makes `pipeline_reset` return -EINVAL (so pipeline reset can
fail), and the walk stops at the failure: component 0 was reset before
it, but component 2 — reachable beyond the failing component — never
gets its reset invoked. -/
theorem pipeline_reset_abort_cex :
    (pipeline_reset resetMidFailHooks 10 resetChainWorld 1 0).1 =
      -EINVAL ∧
    (pipeline_reset resetMidFailHooks 10 resetChainWorld 1 0).2.2 =
      [Event.reset 0, Event.reset 1] ∧
    Event.reset 2 ∉
      (pipeline_reset resetMidFailHooks 10 resetChainWorld 1 0).2.2 := by
  refine ⟨by decide, by decide, by decide⟩

/-- Claim C6 (amended): a failure returned by the reset hook of any
visited component aborts the reset walk.  The conjuncts establish every
step of the abort for an arbitrary failing component: (1) the visited
component whose hook fails returns that error at once, with no
recursion; (2) a negative result from a connected component breaks the
buffer iteration of `pipeline_for_each_comp` immediately — the remaining
buffers are not walked; (3) a failing sub-walk result surfaces unchanged
from the enclosing `pipeline_comp_reset`, whose own component was
already reset (its reset event precedes the sub-walk's); (4)
`pipeline_reset` returns the walk's result verbatim, so a failing walk
fails pipeline reset; (5) concretely, a mid-chain failure on
`resetChainWorld` yields -EINVAL with components 0 and 1 reset and
component 2 never visited. -/
theorem pipeline_reset_abort :
    (∀ (h : Hooks) (pplSrcId fuel : Nat) (w : World) (curId dir : Nat)
       {cur psrc : GComp},
       getComp w curId = some cur → getComp w pplSrcId = some psrc →
       (!comp_is_single_pipeline cur psrc && boundary_filtered w cur dir)
         = false →
       h.resetRet curId < 0 →
       pipeline_comp_reset h pplSrcId (fuel + 1) w curId dir =
         (h.resetRet curId, w, [Event.reset curId])) ∧
    (∀ (func : World → Nat → Nat → Int × World × List Event)
       (w : World) (bid : Nat) (rest : List Nat) (dir : Nat) (err : Int)
       (cid : Nat) (e1 : Int) (w1 : World) (evs1 : List Event),
       (getBuf w bid).bind (fun b => buffer_get_comp b dir) = some cid →
       func w cid dir = (e1, w1, evs1) → e1 < 0 →
       pipeline_for_each_comp w func (bid :: rest) dir err =
         (e1, w1, evs1)) ∧
    (∀ (h : Hooks) (pplSrcId fuel : Nat) (w : World) (curId dir : Nat)
       {cur psrc : GComp},
       getComp w curId = some cur → getComp w pplSrcId = some psrc →
       (!comp_is_single_pipeline cur psrc && boundary_filtered w cur dir)
         = false →
       ¬(h.resetRet curId < 0 ∨ h.resetRet curId = PPL_STATUS_PATH_STOP)
         →
       ∀ e2 w2 evs2,
         pipeline_for_each_comp w
             (fun wa cid da =>
               pipeline_comp_reset h pplSrcId fuel wa cid da)
             (comp_buffer_list cur dir) dir 0 = (e2, w2, evs2) →
         pipeline_comp_reset h pplSrcId (fuel + 1) w curId dir =
           (e2, w2, Event.reset curId :: evs2)) ∧
    (∀ (h : Hooks) (fuel : Nat) (w : World) (pid hostId srcId : Nat)
       {p : GPipeline} {host : GComp},
       getPpl w pid = some p → p.source_comp = some srcId →
       getComp w hostId = some host →
       ∀ r wr evs,
         pipeline_comp_reset h srcId fuel w hostId host.direction =
           (r, wr, evs) →
         pipeline_reset h fuel w pid hostId = (r, wr, evs)) ∧
    pipeline_reset resetMidFailHooks 10 resetChainWorld 1 0 =
      (-EINVAL, resetChainWorld, [Event.reset 0, Event.reset 1]) := by
  refine ⟨?_, ?_, ?_, ?_, by decide⟩
  · intro h pplSrcId fuel w curId dir cur psrc hcur hpsrc hfilter he
    simp [pipeline_comp_reset, hcur, hpsrc, hfilter, he]
  · intro func w bid rest dir err cid e1 w1 evs1 hconn hfunc he1
    rw [pipeline_for_each_comp]
    simp only [hconn, hfunc]
    simp [he1]
  · intro h pplSrcId fuel w curId dir cur psrc hcur hpsrc hfilter hok
      e2 w2 evs2 heach
    simp [pipeline_comp_reset, hcur, hpsrc, hfilter, hok, heach]
  · intro h fuel w pid hostId srcId p host hp hs hhost r wr evs hwalk
    simp only [pipeline_reset, hp, hhost, hs]
    exact hwalk

/-- Witness for C6 (amended): the failing-component conjunct applied at
the mid-chain component 1 of `resetChainWorld`. -/
theorem pipeline_reset_abort_witness :
    pipeline_comp_reset resetMidFailHooks 0 10 resetChainWorld 1
        PPL_DIR_DOWNSTREAM =
      (resetMidFailHooks.resetRet 1, resetChainWorld, [Event.reset 1]) :=
  pipeline_reset_abort.1 resetMidFailHooks 0 9 resetChainWorld 1
    PPL_DIR_DOWNSTREAM rfl rfl rfl (by decide)

/-! ## Theorems: pipeline_free busy check (C9) -/

/-- Counterexample for C9 as stated: in `freeWorld` the sink component
(id 1) is ACTIVE (beyond READY), yet `pipeline_free` succeeds (returns 0,
not -EBUSY) and modifies the graph, because the code only checks the
source component's state. -/
theorem pipeline_free_busy_cex :
    (getComp freeWorld 1).map (fun c => c.state) =
      some COMP_STATE_ACTIVE ∧
    COMP_STATE_ACTIVE > COMP_STATE_READY ∧
    (pipeline_free 10 freeWorld 1).1 = 0 ∧
    (pipeline_free 10 freeWorld 1).1 ≠ -EBUSY ∧
    (pipeline_free 10 freeWorld 1).2 ≠ freeWorld := by
  refine ⟨by decide, by decide, by decide, by decide, by decide⟩

/-- Claim C9 (amended): a pipeline is freed only when its source
component is not beyond the READY state: when the source component's
state is beyond READY, `pipeline_free` fails with -EBUSY and leaves the
world (pipeline, components and connections) unchanged. -/
theorem pipeline_free_busy (fuel : Nat) (w : World) (pid srcId : Nat)
    {p : GPipeline} {src : GComp}
    (hp : getPpl w pid = some p) (hs : p.source_comp = some srcId)
    (hsrc : getComp w srcId = some src)
    (hst : src.state > COMP_STATE_READY) :
    pipeline_free fuel w pid = (-EBUSY, w) := by
  simp only [pipeline_free, hp, hs, hsrc]
  simp [hst]

/-- Witness for C9 (amended) on `freeBusyWorld`. -/
theorem pipeline_free_busy_witness :
    pipeline_free 10 freeBusyWorld 1 = (-EBUSY, freeBusyWorld) :=
  pipeline_free_busy 10 freeBusyWorld 1 0 rfl rfl rfl (by decide)

/-! ## Theorems: pipeline_xrun no-op guard (C10) -/

/-- Claim C10: `pipeline_xrun` is a complete no-op — no trigger
propagation, no host notification, no task cancellation, no change to
`xrun_bytes` or status — whenever the reporting component is not ACTIVE,
and likewise when `xrun_bytes` is already non-zero: the world is
returned unchanged with no observable event. -/
theorem pipeline_xrun_noop (h : Hooks) (fuel : Nat) (w : World)
    (pid devId : Nat) (bytes : Int) {p : GPipeline} {dev : GComp}
    (hp : getPpl w pid = some p) (hd : getComp w devId = some dev)
    (hcond : dev.state ≠ COMP_STATE_ACTIVE ∨ p.xrun_bytes ≠ 0) :
    pipeline_xrun h fuel w pid devId bytes = (w, []) := by
  simp only [pipeline_xrun, hp, hd]
  by_cases hx : p.xrun_bytes ≠ 0
  · simp [hx]
  · rcases hcond with hdev | hxx
    · simp [hx, hdev]
    · exact absurd hxx hx

/-- Witness for C10: a pending-xrun pipeline (`xrunWorld`) ignores a new
report entirely. -/
theorem pipeline_xrun_noop_witness :
    pipeline_xrun hooks0 10 xrunWorld 1 0 (-64) = (xrunWorld, []) :=
  pipeline_xrun_noop hooks0 10 xrunWorld 1 0 (-64) rfl rfl
    (by right; decide)

/-! ## Theorems: traversal termination and visit multiplicity (C8) -/

/-- Helper: a successful association-list lookup is a member. -/
theorem lookup_mem {α : Type} (l : List (Nat × α)) (a : Nat) (b : α)
    (h : l.lookup a = some b) : (a, b) ∈ l := by
  induction l with
  | nil => simp [List.lookup] at h
  | cons x xs ih =>
    rw [List.lookup] at h
    by_cases hx : a == x.1
    · simp only [hx, if_pos] at h
      have ha : a = x.1 := by simpa using hx
      simp only [Option.some.injEq] at h
      cases x
      simp_all [List.mem_cons]
    · simp only [Bool.not_eq_true] at hx
      simp only [hx] at h
      exact List.mem_cons_of_mem _ (ih h)

/-- Helper: a buffer list with no connected component walks to
`some []`. -/
theorem walk_visit_bufs_nil (f : Nat → Option (List Nat)) (w : World)
    (dir : Nat) (bufs : List Nat)
    (h : bufs.filterMap (buffer_conn w dir) = []) :
    walk_visit_bufs f w dir bufs = some [] := by
  induction bufs with
  | nil => rfl
  | cons bid rest ih =>
    rw [walk_visit_bufs]
    simp only [List.filterMap_cons] at h
    cases hb : buffer_conn w dir bid with
    | none => simp only [hb] at h ⊢; exact ih h
    | some cid =>
      simp only [hb] at h
      exact absurd h (List.cons_ne_nil _ _)

/-- Counterexample for C8 as stated: on the finite acyclic diamond graph
`diamondWorld` (acyclicity exhibited by a rank function decreasing along
every walked edge), the downstream walk from component 0 terminates but
visits the join component 3 twice — once per path — so "each reachable
component is visited at most once" fails. -/
theorem walk_visit_at_most_once_cex :
    walk_visit diamondWorld PPL_DIR_DOWNSTREAM 10 0 =
      some [0, 1, 3, 2, 3] ∧
    ((walk_visit diamondWorld PPL_DIR_DOWNSTREAM 10 0).getD []).count 3 =
      2 ∧
    (∀ pr ∈ diamondWorld.comps,
      ∀ j ∈ walk_successors diamondWorld PPL_DIR_DOWNSTREAM pr.2,
        (fun i => if i = 0 then 2 else if i = 3 then 0 else 1) j <
          (fun i => if i = 0 then 2 else if i = 3 then 0 else 1) pr.1) := by
  refine ⟨by decide, by decide, by decide⟩

/-- Claim C8 (amended): on every finite component/buffer graph that is
acyclic along the walk direction (witnessed by a rank function decreasing
across every walked edge), the generic walk terminates — any fuel above
the start component's rank suffices — and it visits each reachable
component once per arriving path; when every component has at most one
connected buffer in the walk direction (chains), each component is
visited at most once (the visit list has no duplicates). -/
theorem walk_visit_terminates_nodup (w : World) (dir : Nat)
    (rank : Nat → Nat)
    (hrank : ∀ pr ∈ w.comps, ∀ j ∈ walk_successors w dir pr.2,
      rank j < rank pr.1) :
    (∀ fuel cur, rank cur < fuel →
      (walk_visit w dir fuel cur).isSome = true) ∧
    ((∀ pr ∈ w.comps, (walk_successors w dir pr.2).length ≤ 1) →
      ∀ fuel cur vs, walk_visit w dir fuel cur = some vs →
        vs.Nodup ∧ ∀ v ∈ vs, rank v ≤ rank cur) := by
  have hrank' : ∀ i c, getComp w i = some c →
      ∀ j ∈ walk_successors w dir c, rank j < rank i := by
    intro i c hc
    exact hrank (i, c) (lookup_mem _ _ _ hc)
  constructor
  · intro fuel
    induction fuel with
    | zero => intro cur h; omega
    | succ fuel ih =>
      intro cur hcur
      rw [walk_visit]
      cases hc : getComp w cur with
      | none => simp
      | some c =>
        simp only [Option.isSome_map']
        have hsub : ∀ bufs,
            (∀ j ∈ bufs.filterMap (buffer_conn w dir), rank j < rank cur) →
            (walk_visit_bufs (fun cid => walk_visit w dir fuel cid) w dir
              bufs).isSome = true := by
          intro bufs
          induction bufs with
          | nil => intro _; rfl
          | cons bid rest ihb =>
            intro hj
            simp only [List.filterMap_cons] at hj
            rw [walk_visit_bufs]
            cases hb : buffer_conn w dir bid with
            | none =>
              simp only [hb] at hj ⊢
              exact ihb hj
            | some cid =>
              simp only [hb] at hj ⊢
              have hcid : rank cid < rank cur :=
                hj cid (List.mem_cons_self _ _)
              have h1 : (walk_visit w dir fuel cid).isSome = true :=
                ih cid (by omega)
              have h2 : (walk_visit_bufs
                  (fun cid => walk_visit w dir fuel cid) w dir
                  rest).isSome = true :=
                ihb (fun j hjr => hj j (List.mem_cons_of_mem _ hjr))
              rcases Option.isSome_iff_exists.mp h1 with ⟨vs1, hvs1⟩
              rcases Option.isSome_iff_exists.mp h2 with ⟨vs2, hvs2⟩
              simp [hvs1, hvs2]
        exact hsub _ (hrank' cur c hc)
  · intro hchain fuel
    induction fuel with
    | zero => intro cur vs h; rw [walk_visit] at h; exact absurd h (by simp)
    | succ fuel ih =>
      intro cur vs hvs
      rw [walk_visit] at hvs
      cases hc : getComp w cur with
      | none =>
        simp only [hc, Option.some.injEq] at hvs
        subst hvs
        exact ⟨List.nodup_singleton _, by simp⟩
      | some c =>
        simp only [hc] at hvs
        rcases Option.map_eq_some'.mp hvs with ⟨us, hus, hvs2⟩
        subst hvs2
        have hlen : ((comp_buffer_list c dir).filterMap
            (buffer_conn w dir)).length ≤ 1 :=
          hchain (cur, c) (lookup_mem _ _ _ hc)
        have hranks : ∀ j ∈ (comp_buffer_list c dir).filterMap
            (buffer_conn w dir), rank j < rank cur :=
          hrank' cur c hc
        have haux : ∀ bufs,
            (bufs.filterMap (buffer_conn w dir)).length ≤ 1 →
            (∀ j ∈ bufs.filterMap (buffer_conn w dir), rank j < rank cur) →
            ∀ us2, walk_visit_bufs (fun cid => walk_visit w dir fuel cid)
                w dir bufs = some us2 →
              us2.Nodup ∧ ∀ v ∈ us2, rank v < rank cur := by
          intro bufs
          induction bufs with
          | nil =>
            intro _ _ us2 h2
            rw [walk_visit_bufs] at h2
            simp only [Option.some.injEq] at h2
            subst h2
            exact ⟨List.nodup_nil, by simp⟩
          | cons bid rest ihb =>
            intro hl hr us2 h2
            rw [walk_visit_bufs] at h2
            simp only [List.filterMap_cons] at hl hr
            cases hb : buffer_conn w dir bid with
            | none =>
              simp only [hb] at hl hr h2
              exact ihb hl hr us2 h2
            | some cid =>
              simp only [hb] at hl hr h2
              have hrest : rest.filterMap (buffer_conn w dir) = [] := by
                simp only [List.length_cons] at hl
                exact List.eq_nil_of_length_eq_zero (by omega)
              rw [walk_visit_bufs_nil _ _ _ _ hrest] at h2
              cases hv1 : walk_visit w dir fuel cid with
              | none =>
                simp only [hv1] at h2
                exact Option.noConfusion h2
              | some vs1 =>
                simp only [hv1, Option.some.injEq] at h2
                subst h2
                have hcid : rank cid < rank cur :=
                  hr cid (List.mem_cons_self _ _)
                obtain ⟨hnd, hrk⟩ := ih cid vs1 hv1
                refine ⟨by simpa using hnd, ?_⟩
                intro v hv
                simp only [List.append_nil] at hv
                exact lt_of_le_of_lt (hrk v hv) hcid
        obtain ⟨hnd, hrk⟩ := haux _ hlen hranks us hus
        constructor
        · exact List.nodup_cons.mpr ⟨fun hmem => absurd (hrk cur hmem)
            (lt_irrefl _), hnd⟩
        · intro v hv
          rcases List.mem_cons.mp hv with h | h
          · subst h; exact le_refl _
          · exact le_of_lt (hrk v h)

/-- Witness for C8 (amended) on the playback chain walked upstream from
the DAI (component 2), with the identity rank function. -/
theorem walk_visit_terminates_nodup_witness :
    (walk_visit playbackWorld PPL_DIR_UPSTREAM 5 2).isSome = true ∧
    (List.Nodup [2, 1, 0] ∧ ∀ v ∈ ([2, 1, 0] : List Nat), v ≤ 2) :=
  ⟨(walk_visit_terminates_nodup playbackWorld PPL_DIR_UPSTREAM
      (fun i => i) (by decide)).1 5 2 (by decide),
   (walk_visit_terminates_nodup playbackWorld PPL_DIR_UPSTREAM
      (fun i => i) (by decide)).2 (by decide) 5 2 [2, 1, 0] (by decide)⟩

/-! ## Theorems: trigger with a pending XRUN (C7) -/

/-- Helper: events emitted by `pipeline_for_each_comp` all come from the
component-level function. -/
theorem pipeline_for_each_comp_events (P : Event → Prop)
    (func : World → Nat → Nat → Int × World × List Event)
    (hfunc : ∀ wa cid da, ∀ e ∈ (func wa cid da).2.2, P e) :
    ∀ (bufs : List Nat) (w : World) (dir : Nat) (err : Int),
      ∀ e ∈ (pipeline_for_each_comp w func bufs dir err).2.2, P e := by
  intro bufs
  induction bufs with
  | nil =>
    intro w dir err e he
    rw [pipeline_for_each_comp] at he
    simp at he
  | cons bid rest ih =>
    intro w dir err e he
    rw [pipeline_for_each_comp] at he
    cases hb : (getBuf w bid).bind (fun b => buffer_get_comp b dir) with
    | none =>
      simp only [hb] at he
      exact ih _ _ _ _ he
    | some cid =>
      simp only [hb] at he
      rcases hfw : func w cid dir with ⟨e1, w1, evs1⟩
      simp only [hfw] at he
      by_cases he1 : e1 < 0
      · simp only [if_pos he1] at he
        have := hfunc w cid dir
        rw [hfw] at this
        exact this e he
      · simp only [if_neg he1] at he
        rcases hrec : pipeline_for_each_comp w1 func rest dir e1 with
          ⟨e2, w2, evs2⟩
        simp only [hrec] at he
        rcases List.mem_append.mp he with h | h
        · have := hfunc w cid dir
          rw [hfw] at this
          exact this e h
        · have := ih w1 dir e1 e
          rw [hrec] at this
          exact this h

/-- Helper: the prepare walk emits only prepare events. -/
theorem pipeline_comp_prepare_events (h : Hooks) (startId : Nat) :
    ∀ (fuel : Nat) (w : World) (curId dir : Nat),
      ∀ e ∈ (pipeline_comp_prepare h startId fuel w curId dir).2.2,
        ∃ c, e = Event.prep c := by
  intro fuel
  induction fuel with
  | zero =>
    intro w curId dir e he
    rw [pipeline_comp_prepare] at he
    simp at he
  | succ fuel ih =>
    intro w curId dir e he
    rw [pipeline_comp_prepare] at he
    cases hc : getComp w curId with
    | none => simp only [hc] at he; simp at he
    | some cur =>
      cases hs : getComp w startId with
      | none => simp only [hc, hs] at he; simp at he
      | some start =>
        simp only [hc, hs] at he
        by_cases hf : (!comp_is_single_pipeline cur start &&
            boundary_filtered w cur dir) = true
        · rw [if_pos hf] at he; simp at he
        · rw [if_neg hf] at he
          by_cases hp : h.prepRet curId < 0 ∨
              h.prepRet curId = PPL_STATUS_PATH_STOP
          · rw [if_pos hp] at he
            simp at he
            exact ⟨curId, he⟩
          · rw [if_neg hp] at he
            rcases hrec : pipeline_for_each_comp w
                (fun wa cid da =>
                  pipeline_comp_prepare h startId fuel wa cid da)
                (comp_buffer_list cur dir) dir 0 with ⟨e2, w2, evs2⟩
            simp only [hrec] at he
            rcases List.mem_cons.mp he with h1 | h1
            · exact ⟨curId, h1⟩
            · have := pipeline_for_each_comp_events
                (fun ev => ∃ c, ev = Event.prep c)
                (fun wa cid da =>
                  pipeline_comp_prepare h startId fuel wa cid da)
                ih (comp_buffer_list cur dir) w dir 0 e
              rw [hrec] at this
              exact this h1

/-- Helper: `pipeline_prepare` emits only prepare events. -/
theorem pipeline_prepare_events (h : Hooks) (fuel : Nat) (w : World)
    (pid devId : Nat) :
    ∀ e ∈ (pipeline_prepare h fuel w pid devId).2.2,
      ∃ c, e = Event.prep c := by
  intro e he
  rw [pipeline_prepare] at he
  cases hp : getPpl w pid with
  | none => simp only [hp] at he; cases getComp w devId <;> simp at he
  | some p =>
    cases hd : getComp w devId with
    | none => simp only [hp, hd] at he; simp at he
    | some dev =>
      simp only [hp, hd] at he
      rcases hwalk : pipeline_comp_prepare h devId fuel w devId
          dev.direction with ⟨ret, w1, evs⟩
      simp only [hwalk] at he
      have hall := pipeline_comp_prepare_events h devId fuel w devId
        dev.direction
      rw [hwalk] at hall
      by_cases hr : ret < 0
      · simp only [if_pos hr] at he
        exact hall e he
      · simp only [if_neg hr] at he
        cases hq : getPpl w1 pid with
        | none => simp only [hq] at he; exact hall e he
        | some p1 => simp only [hq] at he; exact hall e he

/-- Claim C7: for a pipeline with a pending XRUN (`xrun_bytes ≠ 0`,
status PAUSED): a STOP trigger is treated as already stopped — it
returns success, propagates nothing and changes nothing; a START trigger
first runs PREPARE on the whole pipeline (the prepare walk emits only
prepare events), and if that prepare fails the START fails with that
error with no trigger propagated, while on success `xrun_bytes` is
cleared to 0 before the START propagation runs (the propagation starts
from the xrun-cleared world and its events follow the prepare events). -/
theorem pipeline_xrun_pending_trigger (h : Hooks) (fuel : Nat) (w : World)
    (pid hostId srcId : Nat) {p : GPipeline}
    (hp : getPpl w pid = some p) (hx : p.xrun_bytes ≠ 0)
    (hst : p.status = COMP_STATE_PAUSED)
    (hs : p.source_comp = some srcId) :
    pipeline_trigger h fuel w pid hostId COMP_TRIGGER_STOP = (0, w, []) ∧
    (∀ ret w1 evs,
      pipeline_prepare h fuel w pid srcId = (ret, w1, evs) →
      (∀ e ∈ evs, ∃ c, e = Event.prep c) ∧
      (ret < 0 →
        pipeline_trigger h fuel w pid hostId COMP_TRIGGER_START =
          (ret, w1, evs)) ∧
      (¬ret < 0 → ret = PPL_STATUS_PATH_STOP →
        ∀ p1, getPpl w1 pid = some p1 →
        pipeline_trigger h fuel w pid hostId COMP_TRIGGER_START =
          (0, setPpl w1 pid { p1 with xrun_bytes := 0 }, evs)) ∧
      (¬ret < 0 → ret ≠ PPL_STATUS_PATH_STOP →
        ∀ p1 host, getPpl w1 pid = some p1 →
        getComp (setPpl w1 pid { p1 with xrun_bytes := 0 }) hostId =
          some host →
        ∀ r2 w2 evs2,
          pipeline_comp_trigger h hostId COMP_TRIGGER_START fuel
              (setPpl w1 pid { p1 with xrun_bytes := 0 }) hostId
              host.direction = (r2, w2, evs2) →
          pipeline_trigger h fuel w pid hostId COMP_TRIGGER_START =
            (r2, w2, evs ++ evs2))) := by
  have hnotskip : ¬(p.xrun_bytes = 0 ∨ p.status ≠ COMP_STATE_PAUSED) :=
    fun hor => hor.elim hx (fun hne => hne hst)
  constructor
  · simp only [pipeline_trigger, hp, if_pos hx,
      pipeline_xrun_handle_trigger, if_neg hnotskip]
    norm_num [COMP_TRIGGER_STOP, COMP_TRIGGER_START, PPL_STATUS_PATH_STOP]
  · intro ret w1 evs hprep
    have hall := pipeline_prepare_events h fuel w pid srcId
    rw [hprep] at hall
    refine ⟨hall, ?_, ?_, ?_⟩
    · intro hret
      simp only [pipeline_trigger, hp, if_pos hx,
        pipeline_xrun_handle_trigger, if_neg hnotskip]
      norm_num [COMP_TRIGGER_STOP, COMP_TRIGGER_START]
      simp only [hs]
      rw [hprep]
      simp [if_pos hret, hret]
    · intro hret hstop p1 hp1
      simp only [pipeline_trigger, hp, if_pos hx,
        pipeline_xrun_handle_trigger, if_neg hnotskip]
      norm_num [COMP_TRIGGER_STOP, COMP_TRIGGER_START]
      simp only [hs]
      rw [hprep]
      simp [hret, hp1, hstop, PPL_STATUS_PATH_STOP]
    · intro hret hstop p1 host hp1 hhost r2 w2 evs2 hct
      simp only [COMP_TRIGGER_START] at hct
      simp only [pipeline_trigger, hp, if_pos hx,
        pipeline_xrun_handle_trigger, if_neg hnotskip]
      norm_num [COMP_TRIGGER_STOP, COMP_TRIGGER_START]
      simp only [hs]
      rw [hprep]
      simp [hret, hp1, hstop, hhost, hct]

/-- Witness for C7: on the pending-xrun pipeline `xrunWorld`, a STOP
trigger is reported as success with no propagation and no change. -/
theorem pipeline_xrun_pending_trigger_witness :
    pipeline_trigger hooks0 10 xrunWorld 1 0 COMP_TRIGGER_STOP =
      (0, xrunWorld, []) :=
  (pipeline_xrun_pending_trigger hooks0 10 xrunWorld 1 0 0 rfl (by decide)
    rfl rfl).1
